import Mathlib

/-!
# Verification of the resilient fetch layer of jup-sdk-rs

Shallow embedding of `src/fetcher.rs` (retry settings, exponential backoff,
the `fetch_with_retry` orchestration loop) and of the error-classification
behaviour of `src/compat.rs` (`timeout` produces an error whose message
begins with "Operation timed out after ...").

Durations are modelled as natural numbers (an abstract unit, e.g.
milliseconds).  `u32` arithmetic wraps modulo `2^32` (release-build
semantics of `u32::pow`; in debug builds the same overflow is a panic,
so either way the mathematical value is not produced on overflow).

The environment of one call to `fetch_with_retry` — what the network and
decoder return on each successive attempt — is a list of per-attempt
outcomes.  Each outcome is exactly what the Rust loop branches on:
either a response (status, the result of `.json::<T>()`, the result of
`.text()`), or an error from the `compat::timeout` wrapper (its rendered
message plus whether it downcasts to a reqwest connect/request error).
-/

set_option autoImplicit false

namespace JupSdk

/-- `2^32`, the modulus of Rust `u32` arithmetic. -/
def U32MOD : Nat := 2 ^ 32

/-- Does the character list `s` begin with the character list `p`?
Helper for modelling Rust `str::contains`. -/
def listBeginsWith : List Char → List Char → Bool
  | [], _ => true
  | _ :: _, [] => false
  | p :: ps, c :: cs => p == c && listBeginsWith ps cs

/-- Does the character list `s` contain `pat` as a contiguous sublist?
Helper for modelling Rust `str::contains`. -/
def listHasSub (pat : List Char) : List Char → Bool
  | [] => listBeginsWith pat []
  | c :: cs => listBeginsWith pat (c :: cs) || listHasSub pat cs

/-- Model of Rust `s.contains(pat)` on string slices (substring search). -/
def strContainsSub (s pat : String) : Bool :=
  listHasSub pat.data s.data

/-- `RetrySettings` from `src/fetcher.rs`: max retry count, per-attempt
timeout, base backoff (durations as abstract Nat units). -/
structure RetrySettings where
  max_retries : Nat
  request_timeout : Nat
  base_backoff : Nat
  deriving Repr, DecidableEq

/-- `RetrySettings::default()`: `max_retries = 3`, `request_timeout = 10`s,
`base_backoff = 2`s.  Durations here are in milliseconds. -/
def RetrySettings.default : RetrySettings :=
  { max_retries := 3, request_timeout := 10000, base_backoff := 2000 }

/-- `RetrySettings::new()` delegates to `default()`. -/
def RetrySettings.new : RetrySettings := RetrySettings.default

/-- `RetrySettings::with_max_retries`: consumes `self`, overwrites the
`max_retries` field, returns the value. -/
def RetrySettings.with_max_retries (s : RetrySettings) (m : Nat) : RetrySettings :=
  { s with max_retries := m }

/-- `RetrySettings::with_request_timeout`. -/
def RetrySettings.with_request_timeout (s : RetrySettings) (t : Nat) : RetrySettings :=
  { s with request_timeout := t }

/-- `RetrySettings::with_base_backoff`. -/
def RetrySettings.with_base_backoff (s : RetrySettings) (b : Nat) : RetrySettings :=
  { s with base_backoff := b }

/-- `exponential_backoff(retries: u32, base_backoff: Duration)` from
`src/fetcher.rs` lines 43–50:

    if retries == 0 { base_backoff }
    else { base_backoff * 2u32.pow(retries.saturating_sub(1)) }

`Nat` subtraction is already saturating.  The `u32` power wraps modulo
`2^32` (release semantics; in debug builds the overflow is a panic). -/
def exponential_backoff (retries : Nat) (base_backoff : Nat) : Nat :=
  if retries = 0 then
    base_backoff
  else
    let exponential_factor := 2 ^ (retries - 1) % U32MOD
    base_backoff * exponential_factor

/-- What the transport/decoder stack returns for the body of one response:
`status` is the HTTP status code, `json` the result of `.json::<T>()`,
`text` the result of `.text()` (the code reads at most one of the two,
depending on the status). -/
structure Response (T : Type) where
  status : Nat
  json : Except String T
  text : Except String String

/-- An error coming out of `compat::timeout(..)` in the `Err` branch:
its rendered message (`e.to_string()`) and whether
`e.downcast_ref::<reqwest::Error>()` yields an error with
`is_connect() || is_request()` (the native-target check). -/
structure OpError where
  msg : String
  isConnectOrRequest : Bool

/-- The outcome of one attempt as seen by the loop in `fetch_with_retry`:
`compat::timeout` either yields a response or an error. -/
abbrev AttemptOutcome (T : Type) : Type := Except OpError (Response T)

/-- `reqwest::StatusCode::is_success()`: `200 ≤ s ≤ 299`. -/
def isSuccessStatus (s : Nat) : Bool := decide (200 ≤ s) && decide (s ≤ 299)

/-- `reqwest::StatusCode::is_server_error()`: `500 ≤ s ≤ 599`. -/
def isServerErrorStatus (s : Nat) : Bool := decide (500 ≤ s) && decide (s ≤ 599)

/-- The `failure_context` string picked at lines 184–192 of
`src/fetcher.rs`, kept structured. -/
inductive FailureCtx where
  | afterAttempts (n : Nat)
  | dueToTimeout
  | dueToNonRetryable
  deriving Repr, DecidableEq

/-- The distinct error values `fetch_with_retry` can return, kept
structured (each constructor corresponds to one `return Err(..)` site). -/
inductive FetchError where
  /-- 2xx status but `.json::<T>()` failed: `anyhow!("Failed to deserialize
  response from {url}: {e}").context("Status: {status}")`. -/
  | deserializeFailed (url : String) (status : Nat) (jsonErr : String)
  /-- Non-2xx status, not retried (4xx/1xx/3xx, or 5xx with budget
  exhausted): `anyhow!("Request to {url} failed: Status {status},
  Body: {body}")`. -/
  | httpFailed (url : String) (status : Nat) (body : String)
  /-- The `Err` branch of the timeout race, not retried:
  `e.context("Request to {url} failed {failure_context}")`. -/
  | attemptFailed (url : String) (ctx : FailureCtx) (underlying : OpError)

/-- Rendering of `FailureCtx` exactly as the `format!` at
`src/fetcher.rs` lines 184–192 produces it. -/
def FailureCtx.render : FailureCtx → String
  | .afterAttempts n => "after " ++ toString n ++ " attempts"
  | .dueToTimeout => "due to timeout"
  | .dueToNonRetryable => "due to non-retryable error"

/-- The message `err.to_string()` shows for each returned error (for a
context-wrapped `anyhow` error this is the topmost context line). -/
def FetchError.render : FetchError → String
  | .deserializeFailed _ status _ => "Status: " ++ toString status
  | .httpFailed url status body =>
      "Request to " ++ url ++ " failed: Status " ++ toString status ++ ", Body: " ++ body
  | .attemptFailed url ctx _ =>
      "Request to " ++ url ++ " failed " ++ ctx.render

/-- Result of a whole `fetch_with_retry` call.  `noMoreOutcomes` is a
model artifact: the supplied environment list ran out before the loop
finished (the Rust loop would instead keep issuing requests). -/
inductive FetchResult (T : Type) where
  | ok (v : T)
  | error (e : FetchError)
  | noMoreOutcomes

/-- What one iteration of the loop body does with its attempt outcome:
either the loop ends with a result, or it sleeps `delay` and retries. -/
inductive StepOut (T : Type) where
  | done (r : FetchResult T)
  | retry (delay : Nat)

/-- `error_body` at lines 133–134: `error_body_result.unwrap_or_else(|e|
format!("Failed to read error body: {e}"))`. -/
def bodyText : Except String String → String
  | .ok b => b
  | .error e => "Failed to read error body: " ++ e

/-- One iteration of the loop body of `fetch_with_retry`
(`src/fetcher.rs` lines 96–198), given the current `retries` counter and
the outcome of this attempt.  Mirrors the source branch for branch;
`(retries + 1) % U32MOD` is the `retries as u32` cast after `retries += 1`. -/
def fetchStep {T : Type} (s : RetrySettings) (url : String) (retries : Nat)
    (o : AttemptOutcome T) : StepOut T :=
  match o with
  | .ok resp =>
    if isSuccessStatus resp.status then
      match resp.json with
      | .ok data => .done (.ok data)
      | .error e => .done (.error (.deserializeFailed url resp.status e))
    else
      if isServerErrorStatus resp.status && decide (retries < s.max_retries) then
        .retry (exponential_backoff ((retries + 1) % U32MOD) s.base_backoff)
      else
        .done (.error (.httpFailed url resp.status (bodyText resp.text)))
  | .error e =>
    let is_timeout_error := strContainsSub e.msg "timed out"
    let is_underlying_retryable :=
      if is_timeout_error then false else e.isConnectOrRequest
    if (is_timeout_error || is_underlying_retryable)
        && decide (retries < s.max_retries) then
      .retry (exponential_backoff ((retries + 1) % U32MOD) s.base_backoff)
    else
      let failure_context :=
        if (is_timeout_error || is_underlying_retryable)
            && decide (s.max_retries ≤ retries) then
          FailureCtx.afterAttempts (s.max_retries + 1)
        else if is_timeout_error then
          FailureCtx.dueToTimeout
        else
          FailureCtx.dueToNonRetryable
      .done (.error (.attemptFailed url failure_context e))

/-- Observable trace of one `fetch_with_retry` call: its result, how many
attempts (requests) were issued, and the sequence of backoff sleeps. -/
structure FetchTrace (T : Type) where
  result : FetchResult T
  attempts : Nat
  sleeps : List Nat

/-- The retry loop of `fetch_with_retry`, consuming one environment
outcome per attempt and threading the `retries` counter. -/
def fetchGo {T : Type} (s : RetrySettings) (url : String) :
    Nat → List (AttemptOutcome T) → FetchTrace T
  | _, [] => ⟨.noMoreOutcomes, 0, []⟩
  | retries, o :: rest =>
    match fetchStep s url retries o with
    | .done r => ⟨r, 1, []⟩
    | .retry d =>
      let t := fetchGo s url (retries + 1) rest
      ⟨t.result, t.attempts + 1, d :: t.sleeps⟩

/-- `Fetcher::fetch_with_retry` over an environment: `retries` starts at 0. -/
def fetch_with_retry {T : Type} (s : RetrySettings) (url : String)
    (outcomes : List (AttemptOutcome T)) : FetchTrace T :=
  fetchGo s url 0 outcomes

/-- An outcome the loop treats as retryable (would lead to another
attempt if budget remains): a 5xx response, or an error whose message
contains "timed out", or one downcasting to a connect/request error. -/
def retryableOutcome {T : Type} : AttemptOutcome T → Bool
  | .ok resp => isServerErrorStatus resp.status
  | .error e => strContainsSub e.msg "timed out" || e.isConnectOrRequest

/-- An outcome that ends the loop successfully: 2xx status and a body
that decodes to `v`. -/
def successOutcome {T : Type} (o : AttemptOutcome T) (v : T) : Prop :=
  ∃ resp, o = .ok resp ∧ isSuccessStatus resp.status = true ∧ resp.json = .ok v

/-- The message of the error produced by `compat::timeout` when the delay
side wins the race (`src/compat.rs` lines 44 and 71):
`anyhow!("Operation timed out after {:?}", duration)`; `durText` stands
for the `{:?}` rendering of the duration. -/
def timeoutErrMsg (durText : String) : String :=
  "Operation timed out after " ++ durText

end JupSdk

/-! ## Helper lemmas about one loop iteration -/

namespace JupSdk

theorem isSuccess_false_of_server {st : Nat} (h : isServerErrorStatus st = true) :
    isSuccessStatus st = false := by
  simp only [isServerErrorStatus, Bool.and_eq_true, decide_eq_true_eq] at h
  have h2 : decide (st ≤ 299) = false := decide_eq_false (by omega)
  simp [isSuccessStatus, h2]

/-- A retryable outcome with remaining budget makes the loop sleep the
exponential backoff and go around again. -/
theorem fetchStep_retryable_budget {T : Type} (s : RetrySettings) (url : String)
    (retries : Nat) (o : AttemptOutcome T) (hr : retryableOutcome o = true)
    (hb : retries < s.max_retries) :
    fetchStep s url retries o =
      .retry (exponential_backoff ((retries + 1) % U32MOD) s.base_backoff) := by
  have hb' : decide (retries < s.max_retries) = true := decide_eq_true hb
  match o with
  | Except.ok resp =>
    have h5 : isServerErrorStatus resp.status = true := hr
    simp [fetchStep, isSuccess_false_of_server h5, h5, hb']
  | Except.error e =>
    have hor : (strContainsSub e.msg "timed out" || e.isConnectOrRequest) = true := hr
    simp only [fetchStep]
    cases ht : strContainsSub e.msg "timed out" with
    | true => simp [ht, hb']
    | false =>
      rw [ht] at hor
      simp at hor
      simp [ht, hor, hb']

/-- A non-retryable outcome never makes the loop go around again. -/
theorem fetchStep_noRetry_of_not_retryable {T : Type} (s : RetrySettings)
    (url : String) (retries : Nat) (o : AttemptOutcome T)
    (hr : retryableOutcome o = false) (d : Nat) :
    fetchStep s url retries o ≠ .retry d := by
  intro h
  match o with
  | Except.ok resp =>
    have h5 : isServerErrorStatus resp.status = false := hr
    by_cases hs : isSuccessStatus resp.status = true
    · cases hj : resp.json <;> simp [fetchStep, hs, hj] at h
    · rw [Bool.not_eq_true] at hs
      simp [fetchStep, hs, h5] at h
  | Except.error e =>
    have h2 : (strContainsSub e.msg "timed out" || e.isConnectOrRequest) = false := hr
    rw [Bool.or_eq_false_iff] at h2
    simp [fetchStep, h2.1, h2.2] at h


/-- Once the budget is exhausted the loop never goes around again. -/
theorem fetchStep_noRetry_of_exhausted {T : Type} (s : RetrySettings)
    (url : String) (retries : Nat) (o : AttemptOutcome T)
    (hb : ¬ retries < s.max_retries) (d : Nat) :
    fetchStep s url retries o ≠ .retry d := by
  intro h
  match o with
  | Except.ok resp =>
    by_cases hs : isSuccessStatus resp.status = true
    · cases hj : resp.json <;> simp [fetchStep, hs, hj] at h
    · rw [Bool.not_eq_true] at hs
      simp [fetchStep, hs, hb] at h
  | Except.error e =>
    simp [fetchStep, hb] at h

/-- The loop only goes around again on a retryable outcome with budget
remaining. -/
theorem fetchStep_retry_inv {T : Type} (s : RetrySettings) (url : String)
    (retries : Nat) (o : AttemptOutcome T) (d : Nat)
    (h : fetchStep s url retries o = .retry d) :
    retryableOutcome o = true ∧ retries < s.max_retries := by
  constructor
  · by_contra hr
    rw [Bool.not_eq_true] at hr
    exact fetchStep_noRetry_of_not_retryable s url retries o hr d h
  · by_contra hb
    exact fetchStep_noRetry_of_exhausted s url retries o hb d h

/-- A 2xx response whose body decodes ends the loop with the value. -/
theorem fetchStep_success_eq {T : Type} (s : RetrySettings) (url : String)
    (retries : Nat) (resp : Response T) (v : T)
    (hs : isSuccessStatus resp.status = true) (hj : resp.json = .ok v) :
    fetchStep s url retries (Except.ok resp) = .done (.ok v) := by
  simp [fetchStep, hs, hj]

/-- A 2xx response whose body fails to decode ends the loop with the
deserialization error, regardless of remaining budget. -/
theorem fetchStep_decode_terminal {T : Type} (s : RetrySettings) (url : String)
    (retries : Nat) (resp : Response T) (de : String)
    (hs : isSuccessStatus resp.status = true) (hj : resp.json = .error de) :
    fetchStep s url retries (Except.ok resp) =
      .done (.error (.deserializeFailed url resp.status de)) := by
  simp [fetchStep, hs, hj]

/-- A status that is neither 2xx nor 5xx ends the loop immediately with
the `httpFailed` error, regardless of remaining budget. -/
theorem fetchStep_status_terminal {T : Type} (s : RetrySettings) (url : String)
    (retries : Nat) (resp : Response T)
    (hs : isSuccessStatus resp.status = false)
    (h5 : isServerErrorStatus resp.status = false) :
    fetchStep s url retries (Except.ok resp) =
      .done (.error (.httpFailed url resp.status (bodyText resp.text))) := by
  simp [fetchStep, hs, h5]

/-- A 5xx response with the budget exhausted ends the loop with the
`httpFailed` error (which carries no attempt count). -/
theorem fetchStep_server_exhausted {T : Type} (s : RetrySettings) (url : String)
    (retries : Nat) (resp : Response T)
    (h5 : isServerErrorStatus resp.status = true)
    (hb : s.max_retries ≤ retries) :
    fetchStep s url retries (Except.ok resp) =
      .done (.error (.httpFailed url resp.status (bodyText resp.text))) := by
  have hb' : decide (retries < s.max_retries) = false := by
    simp [decide_eq_false_iff_not]
    omega
  simp [fetchStep, isSuccess_false_of_server h5, h5, hb']

/-- A timeout/transport error with the budget exhausted ends the loop
with the `attemptFailed` error whose context is `after (max_retries + 1)
attempts`. -/
theorem fetchStep_opError_exhausted {T : Type} (s : RetrySettings) (url : String)
    (retries : Nat) (e : OpError)
    (hr : (strContainsSub e.msg "timed out" || e.isConnectOrRequest) = true)
    (hb : s.max_retries ≤ retries) :
    fetchStep s url retries (Except.error e : AttemptOutcome T) =
      .done (.error (.attemptFailed url (.afterAttempts (s.max_retries + 1)) e)) := by
  have hb' : decide (retries < s.max_retries) = false := by
    simp [decide_eq_false_iff_not]
    omega
  have hb'' : decide (s.max_retries ≤ retries) = true := decide_eq_true hb
  simp only [fetchStep]
  cases ht : strContainsSub e.msg "timed out" with
  | true => simp [ht, hb', hb'']
  | false =>
    rw [ht] at hr
    simp at hr
    simp [ht, hr, hb', hb'']

end JupSdk

/-! ## Loop-level lemmas -/

namespace JupSdk

/-- The loop never issues more than `max_retries - retries + 1` further
attempts, whatever the environment produces. -/
theorem fetchGo_attempts_le {T : Type} (s : RetrySettings) (url : String)
    (outcomes : List (AttemptOutcome T)) :
    ∀ retries, (fetchGo s url retries outcomes).attempts ≤ s.max_retries - retries + 1 := by
  induction outcomes with
  | nil =>
    intro retries
    simp [fetchGo]
  | cons o rest ih =>
    intro retries
    cases hstep : fetchStep s url retries o with
    | done r =>
      simp only [fetchGo, hstep]
      omega
    | retry d =>
      have hb := (fetchStep_retry_inv s url retries o d hstep).2
      have ihr := ih (retries + 1)
      simp only [fetchGo, hstep]
      omega

/-- With every outcome retryable and enough outcomes supplied, the loop
performs exactly `max_retries - retries + 1` further attempts and ends
in an error. -/
theorem fetchGo_all_retryable {T : Type} (s : RetrySettings) (url : String)
    (outcomes : List (AttemptOutcome T)) :
    ∀ retries, (∀ o ∈ outcomes, retryableOutcome o = true) →
      s.max_retries - retries + 1 ≤ outcomes.length →
      (fetchGo s url retries outcomes).attempts = s.max_retries - retries + 1 ∧
      ∃ err, (fetchGo s url retries outcomes).result = .error err := by
  induction outcomes with
  | nil =>
    intro retries _ hlen
    simp at hlen
  | cons o rest ih =>
    intro retries hall hlen
    by_cases hb : retries < s.max_retries
    · have hstep := fetchStep_retryable_budget s url retries o (hall o (by simp)) hb
      have ihh := ih (retries + 1) (fun x hx => hall x (by simp [hx]))
        (by simp at hlen ⊢; omega)
      simp only [fetchGo, hstep]
      refine ⟨?_, ihh.2⟩
      have h1 := ihh.1
      omega
    · push_neg at hb
      have hr := hall o (by simp)
      cases o with
      | ok resp =>
        have hstep := fetchStep_server_exhausted s url retries resp hr hb
        simp only [fetchGo, hstep]
        exact ⟨by omega, _, rfl⟩
      | error e =>
        have hstep := @fetchStep_opError_exhausted T s url retries e hr hb
        simp only [fetchGo, hstep]
        exact ⟨by omega, _, rfl⟩

/-- Consuming a retryable prefix that fits in the budget shifts the loop
state: the result is whatever the tail produces, with the prefix's
attempts added on. -/
theorem fetchGo_append {T : Type} (s : RetrySettings) (url : String)
    (rest : List (AttemptOutcome T)) (pre : List (AttemptOutcome T)) :
    ∀ retries, (∀ x ∈ pre, retryableOutcome x = true) →
      retries + pre.length ≤ s.max_retries →
      (fetchGo s url retries (pre ++ rest)).result =
        (fetchGo s url (retries + pre.length) rest).result ∧
      (fetchGo s url retries (pre ++ rest)).attempts =
        pre.length + (fetchGo s url (retries + pre.length) rest).attempts := by
  induction pre with
  | nil =>
    intro retries _ _
    simp
  | cons o pre' ih =>
    intro retries hall hlen
    have hb : retries < s.max_retries := by
      simp at hlen
      omega
    have hstep := fetchStep_retryable_budget s url retries o (hall o (by simp)) hb
    have ihh := ih (retries + 1) (fun x hx => hall x (by simp [hx]))
      (by simp at hlen ⊢; omega)
    have hidx : retries + 1 + pre'.length = retries + (pre'.length + 1) := by omega
    rw [hidx] at ihh
    simp only [List.cons_append, fetchGo, hstep, List.length_cons, List.append_eq]
    exact ⟨ihh.1, by rw [ihh.2]; omega⟩

/-- A successful outcome ends the loop at once with the decoded value. -/
theorem fetchGo_success_cons {T : Type} (s : RetrySettings) (url : String)
    (retries : Nat) (o : AttemptOutcome T) (v : T)
    (rest : List (AttemptOutcome T)) (hsucc : successOutcome o v) :
    fetchGo s url retries (o :: rest) = ⟨.ok v, 1, []⟩ := by
  obtain ⟨resp, rfl, hs, hj⟩ := hsucc
  simp only [fetchGo, fetchStep_success_eq s url retries resp v hs hj]

end JupSdk

/-! ## Backoff arithmetic and substring lemmas -/

namespace JupSdk

/-- In range (`n ≤ 32`) the `u32` power does not wrap, and the computed
delay is exactly `base * 2^(n-1)`. -/
theorem exponential_backoff_in_range (n base : Nat) (h1 : 1 ≤ n) (h2 : n ≤ 32) :
    2 ^ (n - 1) < U32MOD ∧ exponential_backoff n base = base * 2 ^ (n - 1) := by
  have hlt : 2 ^ (n - 1) < U32MOD := by
    have := Nat.pow_lt_pow_right (a := 2) (by norm_num) (m := n - 1) (n := 32) (by omega)
    simpa [U32MOD] using this
  refine ⟨hlt, ?_⟩
  have hn : ¬ n = 0 := by omega
  simp only [exponential_backoff, hn, if_false, Nat.mod_eq_of_lt hlt]

/-- Out of range (`n ≥ 33`) the `u32` power wraps to a multiple of
`2^32`, so the whole factor reduces to `0` and the computed delay is `0`
(release semantics; in a debug build this very overflow is a panic). -/
theorem exponential_backoff_overflow (n base : Nat) (h : 33 ≤ n) :
    exponential_backoff n base = 0 := by
  have hn : ¬ n = 0 := by omega
  have hsplit : n - 1 = 32 + (n - 33) := by omega
  simp only [exponential_backoff, hn, if_false, U32MOD, hsplit, pow_add,
    Nat.mul_mod_right, Nat.mul_zero]

theorem listBeginsWith_append (l2 : List Char) :
    ∀ (p l : List Char), listBeginsWith p l = true → listBeginsWith p (l ++ l2) = true
  | [], _, _ => rfl
  | a :: ps, [], h => by simp [listBeginsWith] at h
  | a :: ps, c :: cs, h => by
    simp only [listBeginsWith, Bool.and_eq_true] at h
    simp only [List.cons_append, listBeginsWith, Bool.and_eq_true]
    exact ⟨h.1, listBeginsWith_append l2 ps cs h.2⟩

theorem listHasSub_nil_pat : ∀ l : List Char, listHasSub [] l = true
  | [] => rfl
  | _ :: _ => by simp [listHasSub, listBeginsWith]

theorem listHasSub_append (l2 : List Char) :
    ∀ (p l : List Char), listHasSub p l = true → listHasSub p (l ++ l2) = true
  | p, [], h => by
    cases p with
    | nil => exact listHasSub_nil_pat l2
    | cons a ps => simp [listHasSub, listBeginsWith] at h
  | p, c :: cs, h => by
    simp only [listHasSub, Bool.or_eq_true] at h
    simp only [List.cons_append, listHasSub, Bool.or_eq_true]
    rcases h with h | h
    · exact Or.inl (by simpa using listBeginsWith_append l2 p (c :: cs) h)
    · exact Or.inr (listHasSub_append l2 p cs h)

end JupSdk

/-! ## Claim theorems -/

namespace JupSdk

/-- C1: with `max_retries = R`, `fetch_with_retry` issues at most `R + 1`
attempts for any environment (in particular for any mix of retryable
failures); exactly `R + 1` attempts (then an error) when every outcome is
retryable and the environment supplies enough of them; and exactly `k`
attempts returning the decoded value when the first `k - 1` outcomes are
retryable (`k ≤ R + 1`) and the `k`-th succeeds. -/
theorem fetch_with_retry_attempt_count {T : Type} (s : RetrySettings) (url : String) :
    (∀ outcomes : List (AttemptOutcome T),
        (fetch_with_retry s url outcomes).attempts ≤ s.max_retries + 1) ∧
    (∀ outcomes : List (AttemptOutcome T),
        (∀ o ∈ outcomes, retryableOutcome o = true) →
        s.max_retries + 1 ≤ outcomes.length →
        (fetch_with_retry s url outcomes).attempts = s.max_retries + 1 ∧
        ∃ err, (fetch_with_retry s url outcomes).result = .error err) ∧
    (∀ (pre : List (AttemptOutcome T)) (o : AttemptOutcome T) (v : T)
        (rest : List (AttemptOutcome T)),
        (∀ x ∈ pre, retryableOutcome x = true) →
        pre.length ≤ s.max_retries →
        successOutcome o v →
        (fetch_with_retry s url (pre ++ o :: rest)).result = .ok v ∧
        (fetch_with_retry s url (pre ++ o :: rest)).attempts = pre.length + 1) := by
  refine ⟨?_, ?_, ?_⟩
  · intro outcomes
    have h := fetchGo_attempts_le s url outcomes 0
    simpa [fetch_with_retry] using h
  · intro outcomes hall hlen
    have h := fetchGo_all_retryable s url outcomes 0 hall (by simpa using hlen)
    simpa [fetch_with_retry] using h
  · intro pre o v rest hall hlen hsucc
    have happ := fetchGo_append s url (o :: rest) pre 0 hall (by simpa using hlen)
    have hs := fetchGo_success_cons s url (0 + pre.length) o v rest hsucc
    constructor
    · simp only [fetch_with_retry, happ.1, hs]
    · simp only [fetch_with_retry, happ.2, hs]

/-- Witness for C1: two 503 responses then a 200 whose body decodes to 1,
with `max_retries = 2`, gives the value after exactly 3 attempts. -/
theorem fetch_with_retry_attempt_count_witness :
    (fetch_with_retry (⟨2, 5000, 100⟩ : RetrySettings) "https://example/ok"
        [Except.ok (⟨503, Except.error "no json", Except.ok "oops"⟩ : Response Nat),
         Except.ok ⟨503, Except.error "no json", Except.ok "oops"⟩,
         Except.ok ⟨200, Except.ok 1, Except.ok "body"⟩]).result = .ok 1 ∧
    (fetch_with_retry (⟨2, 5000, 100⟩ : RetrySettings) "https://example/ok"
        [Except.ok (⟨503, Except.error "no json", Except.ok "oops"⟩ : Response Nat),
         Except.ok ⟨503, Except.error "no json", Except.ok "oops"⟩,
         Except.ok ⟨200, Except.ok 1, Except.ok "body"⟩]).attempts = 2 + 1 := by
  have h := (fetch_with_retry_attempt_count (T := Nat)
      (⟨2, 5000, 100⟩ : RetrySettings) "https://example/ok").2.2
    [Except.ok ⟨503, Except.error "no json", Except.ok "oops"⟩,
     Except.ok ⟨503, Except.error "no json", Except.ok "oops"⟩]
    (Except.ok ⟨200, Except.ok 1, Except.ok "body"⟩) 1 []
    (by decide) (by decide)
    ⟨⟨200, Except.ok 1, Except.ok "body"⟩, rfl, by decide, rfl⟩
  simpa using h

/-- C2 counterexample: with `max_retries = 2` and a 503 on all three
attempts, the returned error is the plain `httpFailed` error: it carries
the 503 status, but its message does not mention the attempt count
("attempts" does not occur in it) — contradicting the claim that the
budget-exhaustion error indicates the total attempt count.  (The code's
own test `test_fetch_500_with_retry` asserts exactly this absence.) -/
theorem fetch_server_exhaustion_counterexample :
    (fetch_with_retry (⟨2, 5000, 100⟩ : RetrySettings) "https://x"
        [Except.ok (⟨503, Except.error "no json", Except.ok "oops"⟩ : Response Nat),
         Except.ok ⟨503, Except.error "no json", Except.ok "oops"⟩,
         Except.ok ⟨503, Except.error "no json", Except.ok "oops"⟩]).result =
      .error (.httpFailed "https://x" 503 "oops") ∧
    (fetch_with_retry (⟨2, 5000, 100⟩ : RetrySettings) "https://x"
        [Except.ok (⟨503, Except.error "no json", Except.ok "oops"⟩ : Response Nat),
         Except.ok ⟨503, Except.error "no json", Except.ok "oops"⟩,
         Except.ok ⟨503, Except.error "no json", Except.ok "oops"⟩]).attempts = 3 ∧
    strContainsSub (FetchError.render (.httpFailed "https://x" 503 "oops"))
      "attempts" = false ∧
    strContainsSub (FetchError.render (.httpFailed "https://x" 503 "oops"))
      "Status 503" = true := by
  refine ⟨rfl, rfl, by decide, by decide⟩

/-- C2 amended: exhausting the budget on 5xx statuses returns the
`httpFailed` error carrying the final status and body (no attempt count),
after exactly `max_retries + 1` attempts; the "after `max_retries + 1`
attempts" context appears only when the budget is exhausted by
timeout/transport errors. -/
theorem fetch_exhaustion_errors {T : Type} (s : RetrySettings) (url : String) :
    (∀ (pre : List (AttemptOutcome T)) (resp : Response T)
        (rest : List (AttemptOutcome T)),
        (∀ x ∈ pre, retryableOutcome x = true) →
        pre.length = s.max_retries →
        isServerErrorStatus resp.status = true →
        (fetch_with_retry s url (pre ++ Except.ok resp :: rest)).result =
          .error (.httpFailed url resp.status (bodyText resp.text)) ∧
        (fetch_with_retry s url (pre ++ Except.ok resp :: rest)).attempts =
          s.max_retries + 1) ∧
    (∀ (pre : List (AttemptOutcome T)) (e : OpError)
        (rest : List (AttemptOutcome T)),
        (∀ x ∈ pre, retryableOutcome x = true) →
        pre.length = s.max_retries →
        (strContainsSub e.msg "timed out" || e.isConnectOrRequest) = true →
        (fetch_with_retry s url (pre ++ Except.error e :: rest)).result =
          .error (.attemptFailed url (.afterAttempts (s.max_retries + 1)) e) ∧
        (fetch_with_retry s url (pre ++ Except.error e :: rest)).attempts =
          s.max_retries + 1) := by
  constructor
  · intro pre resp rest hall hlen h5
    have happ := fetchGo_append s url (Except.ok resp :: rest) pre 0 hall (by omega)
    have hstep := fetchStep_server_exhausted s url (0 + pre.length) resp h5 (by omega)
    constructor
    · rw [fetch_with_retry, happ.1]
      simp only [fetchGo, hstep]
    · rw [fetch_with_retry, happ.2]
      simp only [fetchGo, hstep]
      omega
  · intro pre e rest hall hlen hr
    have happ := fetchGo_append s url (Except.error e :: rest) pre 0 hall (by omega)
    have hstep := @fetchStep_opError_exhausted T s url (0 + pre.length) e hr (by omega)
    constructor
    · rw [fetch_with_retry, happ.1]
      simp only [fetchGo, hstep]
    · rw [fetch_with_retry, happ.2]
      simp only [fetchGo, hstep]
      omega

/-- Witness for the amended C2: three 503s with `max_retries = 2` give
the `httpFailed` error after 3 attempts; three timeouts give the
`after 3 attempts` context. -/
theorem fetch_exhaustion_errors_witness :
    (fetch_with_retry (⟨2, 5000, 100⟩ : RetrySettings) "https://x"
        [Except.ok (⟨503, Except.error "no json", Except.ok "oops"⟩ : Response Nat),
         Except.ok ⟨503, Except.error "no json", Except.ok "oops"⟩,
         Except.ok ⟨503, Except.error "no json", Except.ok "oops"⟩]).result =
      .error (.httpFailed "https://x" 503 "oops") ∧
    (fetch_with_retry (⟨2, 5000, 100⟩ : RetrySettings) "https://x"
        [Except.error (⟨"Operation timed out after 5s", false⟩ : OpError),
         Except.error ⟨"Operation timed out after 5s", false⟩,
         Except.error ⟨"Operation timed out after 5s", false⟩]
        (T := Nat)).result =
      .error (.attemptFailed "https://x" (.afterAttempts 3)
        ⟨"Operation timed out after 5s", false⟩) := by
  constructor
  · exact (((fetch_exhaustion_errors (T := Nat) (⟨2, 5000, 100⟩ : RetrySettings)
      "https://x").1)
      [Except.ok ⟨503, Except.error "no json", Except.ok "oops"⟩,
       Except.ok ⟨503, Except.error "no json", Except.ok "oops"⟩]
      ⟨503, Except.error "no json", Except.ok "oops"⟩ []
      (by decide) rfl (by decide)).1
  · exact (((fetch_exhaustion_errors (T := Nat) (⟨2, 5000, 100⟩ : RetrySettings)
      "https://x").2)
      [Except.error ⟨"Operation timed out after 5s", false⟩,
       Except.error ⟨"Operation timed out after 5s", false⟩]
      ⟨"Operation timed out after 5s", false⟩ []
      (by decide) rfl (by decide)).1

end JupSdk

namespace JupSdk

/-- C3 counterexample: the formula `delay(n) = base * 2^(n-1)` and strict
monotonicity both fail at `n = 33`: the `u32` factor `2^32` wraps and the
computed delay drops to `0`. -/
theorem backoff_formula_counterexample :
    exponential_backoff 33 200 = 0 ∧
    ¬ exponential_backoff 33 200 = 200 * 2 ^ (33 - 1) ∧
    exponential_backoff 33 200 < exponential_backoff 32 200 := by
  refine ⟨by decide, by decide, by decide⟩

/-- C3 amended: for retry numbers `1 ≤ n ≤ 32` the backoff delay is
exactly `base * 2^(n-1)` (base, 2×base, 4×base, …) and is strictly
increasing in `n` for `base > 0`; in the scenario of two 503 responses
then a 200 with `base_backoff = 100`, exactly two sleeps of 100 and 200
occur and the call succeeds.  (Beyond `n = 32` the `u32` power wraps.) -/
theorem backoff_delay_and_sleep_scenario :
    (∀ n base, 1 ≤ n → n ≤ 32 →
        exponential_backoff n base = base * 2 ^ (n - 1)) ∧
    (∀ n m base, 1 ≤ n → n < m → m ≤ 32 → 0 < base →
        exponential_backoff n base < exponential_backoff m base) ∧
    ((fetch_with_retry (⟨2, 5000, 100⟩ : RetrySettings) "https://x"
        [Except.ok (⟨503, Except.error "no json", Except.ok "oops"⟩ : Response Nat),
         Except.ok ⟨503, Except.error "no json", Except.ok "oops"⟩,
         Except.ok ⟨200, Except.ok 1, Except.ok "body"⟩]).sleeps = [100, 200] ∧
     (fetch_with_retry (⟨2, 5000, 100⟩ : RetrySettings) "https://x"
        [Except.ok (⟨503, Except.error "no json", Except.ok "oops"⟩ : Response Nat),
         Except.ok ⟨503, Except.error "no json", Except.ok "oops"⟩,
         Except.ok ⟨200, Except.ok 1, Except.ok "body"⟩]).result = .ok 1) := by
  refine ⟨?_, ?_, rfl, rfl⟩
  · intro n base h1 h2
    exact (exponential_backoff_in_range n base h1 h2).2
  · intro n m base h1 h2 h3 hb
    rw [(exponential_backoff_in_range n base h1 (by omega)).2,
      (exponential_backoff_in_range m base (by omega) h3).2]
    have hp : 2 ^ (n - 1) < 2 ^ (m - 1) :=
      Nat.pow_lt_pow_right (by norm_num) (by omega)
    exact mul_lt_mul_of_pos_left hp hb

/-- Witness for the amended C3: the third retry sleeps `4 × base`, and
sleeps strictly increase from retry 1 to retry 2. -/
theorem backoff_delay_and_sleep_scenario_witness :
    exponential_backoff 3 100 = 100 * 2 ^ (3 - 1) ∧
    exponential_backoff 1 100 < exponential_backoff 2 100 :=
  ⟨(backoff_delay_and_sleep_scenario.1) 3 100 (by decide) (by decide),
   (backoff_delay_and_sleep_scenario.2.1) 1 2 100 (by decide) (by decide)
     (by decide) (by decide)⟩

/-- C4: the classification of one attempt's outcome — 2xx with a decoding
body succeeds; 2xx with a non-decoding body is terminal regardless of
budget; 5xx is retryable; 4xx is terminal regardless of budget; a
connect/request transport error is retryable; an elapsed timeout is
retryable; and a retry only ever happens on a retryable outcome with
budget remaining. -/
theorem fetch_outcome_classification {T : Type} (s : RetrySettings)
    (url : String) (retries : Nat) :
    (∀ (resp : Response T) (v : T),
        isSuccessStatus resp.status = true → resp.json = .ok v →
        fetchStep s url retries (Except.ok resp) = .done (.ok v)) ∧
    (∀ (resp : Response T) (de : String),
        isSuccessStatus resp.status = true → resp.json = .error de →
        fetchStep s url retries (Except.ok resp) =
          .done (.error (.deserializeFailed url resp.status de))) ∧
    (∀ resp : Response T,
        isServerErrorStatus resp.status = true → retries < s.max_retries →
        fetchStep s url retries (Except.ok resp) =
          .retry (exponential_backoff ((retries + 1) % U32MOD) s.base_backoff)) ∧
    (∀ resp : Response T,
        400 ≤ resp.status → resp.status ≤ 499 →
        fetchStep s url retries (Except.ok resp) =
          .done (.error (.httpFailed url resp.status (bodyText resp.text)))) ∧
    (∀ e : OpError,
        e.isConnectOrRequest = true → retries < s.max_retries →
        fetchStep s url retries (Except.error e : AttemptOutcome T) =
          .retry (exponential_backoff ((retries + 1) % U32MOD) s.base_backoff)) ∧
    (∀ e : OpError,
        strContainsSub e.msg "timed out" = true → retries < s.max_retries →
        fetchStep s url retries (Except.error e : AttemptOutcome T) =
          .retry (exponential_backoff ((retries + 1) % U32MOD) s.base_backoff)) ∧
    (∀ (o : AttemptOutcome T) (d : Nat),
        fetchStep s url retries o = .retry d →
        retryableOutcome o = true ∧ retries < s.max_retries) := by
  refine ⟨?_, ?_, ?_, ?_, ?_, ?_, ?_⟩
  · intro resp v hs hj
    exact fetchStep_success_eq s url retries resp v hs hj
  · intro resp de hs hj
    exact fetchStep_decode_terminal s url retries resp de hs hj
  · intro resp h5 hb
    exact fetchStep_retryable_budget s url retries (Except.ok resp) h5 hb
  · intro resp h4a h4b
    have hs : isSuccessStatus resp.status = false := by
      have h2 : decide (resp.status ≤ 299) = false := decide_eq_false (by omega)
      simp [isSuccessStatus, h2]
    have h5 : isServerErrorStatus resp.status = false := by
      have h2 : decide (500 ≤ resp.status) = false := decide_eq_false (by omega)
      simp [isServerErrorStatus, h2]
    exact fetchStep_status_terminal s url retries resp hs h5
  · intro e he hb
    have hr : retryableOutcome (Except.error e : AttemptOutcome T) = true := by
      show (strContainsSub e.msg "timed out" || e.isConnectOrRequest) = true
      simp [he]
    exact fetchStep_retryable_budget s url retries (Except.error e) hr hb
  · intro e ht hb
    have hr : retryableOutcome (Except.error e : AttemptOutcome T) = true := by
      show (strContainsSub e.msg "timed out" || e.isConnectOrRequest) = true
      simp [ht]
    exact fetchStep_retryable_budget s url retries (Except.error e) hr hb
  · intro o d h
    exact fetchStep_retry_inv s url retries o d h

/-- Witness for C4: concrete instances of the success, 4xx-terminal and
timeout-retry rows of the taxonomy. -/
theorem fetch_outcome_classification_witness :
    fetchStep (⟨2, 5000, 100⟩ : RetrySettings) "u" 0
        (Except.ok (⟨200, Except.ok 7, Except.ok "b"⟩ : Response Nat)) =
      .done (.ok 7) ∧
    fetchStep (⟨2, 5000, 100⟩ : RetrySettings) "u" 0
        (Except.ok (⟨404, Except.error "no", Except.ok "missing"⟩ : Response Nat)) =
      .done (.error (.httpFailed "u" 404 "missing")) ∧
    fetchStep (⟨2, 5000, 100⟩ : RetrySettings) "u" 0
        (Except.error (⟨"Operation timed out after 5s", false⟩ : OpError) :
          AttemptOutcome Nat) =
      .retry (exponential_backoff ((0 + 1) % U32MOD) 100) :=
  ⟨(fetch_outcome_classification (T := Nat) ⟨2, 5000, 100⟩ "u" 0).1
      ⟨200, Except.ok 7, Except.ok "b"⟩ 7 (by decide) rfl,
   (fetch_outcome_classification (T := Nat) ⟨2, 5000, 100⟩ "u" 0).2.2.2.1
      ⟨404, Except.error "no", Except.ok "missing"⟩ (by decide) (by decide),
   (fetch_outcome_classification (T := Nat) ⟨2, 5000, 100⟩ "u" 0).2.2.2.2.2.1
      ⟨"Operation timed out after 5s", false⟩ (by decide) (by decide)⟩

/-- C5: a 4xx status on the first attempt returns the `httpFailed` error
(carrying the URL and the status) after exactly one attempt, with no
sleep and no retry, whatever the remaining budget. -/
theorem fetch_4xx_first_attempt {T : Type} (s : RetrySettings) (url : String)
    (resp : Response T) (rest : List (AttemptOutcome T))
    (h4a : 400 ≤ resp.status) (h4b : resp.status ≤ 499) :
    (fetch_with_retry s url (Except.ok resp :: rest)).result =
      .error (.httpFailed url resp.status (bodyText resp.text)) ∧
    (fetch_with_retry s url (Except.ok resp :: rest)).attempts = 1 ∧
    (fetch_with_retry s url (Except.ok resp :: rest)).sleeps = [] := by
  have hs : isSuccessStatus resp.status = false := by
    have h2 : decide (resp.status ≤ 299) = false := decide_eq_false (by omega)
    simp [isSuccessStatus, h2]
  have h5 : isServerErrorStatus resp.status = false := by
    have h2 : decide (500 ≤ resp.status) = false := decide_eq_false (by omega)
    simp [isServerErrorStatus, h2]
  have hstep := fetchStep_status_terminal s url 0 resp hs h5
  refine ⟨?_, ?_, ?_⟩ <;> simp only [fetch_with_retry, fetchGo, hstep]

/-- Witness for C5: a 404 with bountiful budget (`max_retries = 3`) still
fails on the first attempt with no sleeps. -/
theorem fetch_4xx_first_attempt_witness :
    (fetch_with_retry (⟨3, 5000, 100⟩ : RetrySettings) "https://x"
        [Except.ok (⟨404, Except.error "no", Except.ok "missing"⟩ : Response Nat)]).result =
      .error (.httpFailed "https://x" 404 "missing") ∧
    (fetch_with_retry (⟨3, 5000, 100⟩ : RetrySettings) "https://x"
        [Except.ok (⟨404, Except.error "no", Except.ok "missing"⟩ : Response Nat)]).attempts = 1 ∧
    (fetch_with_retry (⟨3, 5000, 100⟩ : RetrySettings) "https://x"
        [Except.ok (⟨404, Except.error "no", Except.ok "missing"⟩ : Response Nat)]).sleeps = [] :=
  fetch_4xx_first_attempt (⟨3, 5000, 100⟩ : RetrySettings) "https://x"
    ⟨404, Except.error "no", Except.ok "missing"⟩ [] (by decide) (by decide)

end JupSdk

namespace JupSdk

/-- C7 counterexample: `exponential_backoff` does overflow: at retry
number 33 the mathematical factor `2^32` exceeds `u32::MAX`, the wrapped
factor is `0`, and the computed delay collapses to `0` instead of
`base * 2^32` (in a debug build the same overflow panics inside
`2u32.pow`); no cap or saturating exponentiation is applied. -/
theorem backoff_overflow_counterexample :
    U32MOD ≤ 2 ^ (33 - 1) ∧
    exponential_backoff 33 100 = 0 ∧
    ¬ exponential_backoff 33 100 = 100 * 2 ^ (33 - 1) := by
  refine ⟨by decide, by decide, by decide⟩

/-- C7 amended: the exponent subtraction is saturating and for retry
numbers up to 32 the `u32` factor fits and the delay is exact (no
overflow), but from retry number 33 on the `u32` power overflows: the
wrapped factor is `0`, so the computed delay is `0` for every `n ≥ 33`
(release semantics; a panic in debug builds).  Within one
`fetch_with_retry` run the retry number never exceeds `max_retries`, so
no overflow occurs when `max_retries ≤ 32`. -/
theorem backoff_overflow_boundary :
    (∀ n base, 1 ≤ n → n ≤ 32 →
        2 ^ (n - 1) < U32MOD ∧
        exponential_backoff n base = base * 2 ^ (n - 1)) ∧
    (∀ n base, 33 ≤ n → exponential_backoff n base = 0) := by
  constructor
  · intro n base h1 h2
    exact exponential_backoff_in_range n base h1 h2
  · intro n base h
    exact exponential_backoff_overflow n base h

/-- Witness for the amended C7: retry 32 is the last exact delay; retry
33 wraps to zero. -/
theorem backoff_overflow_boundary_witness :
    (2 ^ (32 - 1) < U32MOD ∧ exponential_backoff 32 3 = 3 * 2 ^ (32 - 1)) ∧
    exponential_backoff 33 3 = 0 :=
  ⟨backoff_overflow_boundary.1 32 3 (by decide) (by decide),
   backoff_overflow_boundary.2 33 3 (by decide)⟩

/-- C8: each `RetrySettings` builder method overwrites exactly its own
field and leaves the other two unchanged; as pure value-to-value
functions they cannot mutate state shared with another settings value. -/
theorem retry_settings_builder_frame (s : RetrySettings) (m t b : Nat) :
    ((s.with_max_retries m).max_retries = m ∧
     (s.with_max_retries m).request_timeout = s.request_timeout ∧
     (s.with_max_retries m).base_backoff = s.base_backoff) ∧
    ((s.with_request_timeout t).request_timeout = t ∧
     (s.with_request_timeout t).max_retries = s.max_retries ∧
     (s.with_request_timeout t).base_backoff = s.base_backoff) ∧
    ((s.with_base_backoff b).base_backoff = b ∧
     (s.with_base_backoff b).max_retries = s.max_retries ∧
     (s.with_base_backoff b).request_timeout = s.request_timeout) :=
  ⟨⟨rfl, rfl, rfl⟩, ⟨rfl, rfl, rfl⟩, ⟨rfl, rfl, rfl⟩⟩

/-- C9: any status that is neither 2xx nor 5xx — 1xx and 3xx included,
not only 4xx — is terminal: the call returns the `httpFailed` error after
that one attempt, with no sleep and no retry, even with budget left. -/
theorem fetch_non2xx_non5xx_terminal {T : Type} (s : RetrySettings)
    (url : String) (resp : Response T) (rest : List (AttemptOutcome T))
    (hs : isSuccessStatus resp.status = false)
    (h5 : isServerErrorStatus resp.status = false) :
    (fetch_with_retry s url (Except.ok resp :: rest)).result =
      .error (.httpFailed url resp.status (bodyText resp.text)) ∧
    (fetch_with_retry s url (Except.ok resp :: rest)).attempts = 1 ∧
    (fetch_with_retry s url (Except.ok resp :: rest)).sleeps = [] := by
  have hstep := fetchStep_status_terminal s url 0 resp hs h5
  refine ⟨?_, ?_, ?_⟩ <;> simp only [fetch_with_retry, fetchGo, hstep]

/-- Witness for C9: a 301 redirect and a 101 informational status both
fail terminally on the first attempt despite `max_retries = 3`. -/
theorem fetch_non2xx_non5xx_terminal_witness :
    ((fetch_with_retry (⟨3, 5000, 100⟩ : RetrySettings) "https://x"
        [Except.ok (⟨301, Except.error "no", Except.ok "moved"⟩ : Response Nat)]).result =
      .error (.httpFailed "https://x" 301 "moved") ∧
     (fetch_with_retry (⟨3, 5000, 100⟩ : RetrySettings) "https://x"
        [Except.ok (⟨301, Except.error "no", Except.ok "moved"⟩ : Response Nat)]).attempts = 1 ∧
     (fetch_with_retry (⟨3, 5000, 100⟩ : RetrySettings) "https://x"
        [Except.ok (⟨301, Except.error "no", Except.ok "moved"⟩ : Response Nat)]).sleeps = []) ∧
    ((fetch_with_retry (⟨3, 5000, 100⟩ : RetrySettings) "https://x"
        [Except.ok (⟨101, Except.error "no", Except.ok "switch"⟩ : Response Nat)]).result =
      .error (.httpFailed "https://x" 101 "switch") ∧
     (fetch_with_retry (⟨3, 5000, 100⟩ : RetrySettings) "https://x"
        [Except.ok (⟨101, Except.error "no", Except.ok "switch"⟩ : Response Nat)]).attempts = 1 ∧
     (fetch_with_retry (⟨3, 5000, 100⟩ : RetrySettings) "https://x"
        [Except.ok (⟨101, Except.error "no", Except.ok "switch"⟩ : Response Nat)]).sleeps = []) :=
  ⟨fetch_non2xx_non5xx_terminal (⟨3, 5000, 100⟩ : RetrySettings) "https://x"
      ⟨301, Except.error "no", Except.ok "moved"⟩ [] (by decide) (by decide),
   fetch_non2xx_non5xx_terminal (⟨3, 5000, 100⟩ : RetrySettings) "https://x"
      ⟨101, Except.error "no", Except.ok "switch"⟩ [] (by decide) (by decide)⟩

/-- C10: timeout detection is a substring test on the rendered message —
any error whose message contains "timed out" is retried as a timeout
(with budget left), an error whose message lacks it and does not
downcast to a connect/request error is terminal even with budget left,
and the message `compat::timeout` actually produces does contain the
substring, whatever the duration renders as. -/
theorem timeout_substring_classification {T : Type} (s : RetrySettings)
    (url : String) (retries : Nat) :
    (∀ e : OpError,
        strContainsSub e.msg "timed out" = true → retries < s.max_retries →
        fetchStep s url retries (Except.error e : AttemptOutcome T) =
          .retry (exponential_backoff ((retries + 1) % U32MOD) s.base_backoff)) ∧
    (∀ e : OpError,
        strContainsSub e.msg "timed out" = false → e.isConnectOrRequest = false →
        fetchStep s url retries (Except.error e : AttemptOutcome T) =
          .done (.error (.attemptFailed url .dueToNonRetryable e))) ∧
    (∀ durText : String,
        strContainsSub (timeoutErrMsg durText) "timed out" = true) := by
  refine ⟨?_, ?_, ?_⟩
  · intro e ht hb
    have hr : retryableOutcome (Except.error e : AttemptOutcome T) = true := by
      show (strContainsSub e.msg "timed out" || e.isConnectOrRequest) = true
      simp [ht]
    exact fetchStep_retryable_budget s url retries (Except.error e) hr hb
  · intro e ht hc
    simp [fetchStep, ht, hc]
  · intro durText
    show listHasSub ("timed out".data) (("Operation timed out after " ++ durText).data) = true
    rw [String.data_append]
    exact listHasSub_append durText.data ("timed out".data)
      ("Operation timed out after ".data) (by decide)

/-- Witness for C10: with budget left, a non-timeout message that merely
contains "timed out" is retried; a connection-refused message is not
retried as a timeout; and the real timeout message for "5s" matches. -/
theorem timeout_substring_classification_witness :
    fetchStep (⟨2, 5000, 100⟩ : RetrySettings) "u" 0
        (Except.error (⟨"the peer timed out the session", false⟩ : OpError) :
          AttemptOutcome Nat) =
      .retry (exponential_backoff ((0 + 1) % U32MOD) 100) ∧
    fetchStep (⟨2, 5000, 100⟩ : RetrySettings) "u" 0
        (Except.error (⟨"connection refused", false⟩ : OpError) :
          AttemptOutcome Nat) =
      .done (.error (.attemptFailed "u" .dueToNonRetryable
        ⟨"connection refused", false⟩)) ∧
    strContainsSub (timeoutErrMsg "5s") "timed out" = true :=
  ⟨(timeout_substring_classification (T := Nat) ⟨2, 5000, 100⟩ "u" 0).1
      ⟨"the peer timed out the session", false⟩ (by decide) (by decide),
   (timeout_substring_classification (T := Nat) ⟨2, 5000, 100⟩ "u" 0).2.1
      ⟨"connection refused", false⟩ (by decide) rfl,
   (timeout_substring_classification (T := Nat) ⟨2, 5000, 100⟩ "u" 0).2.2 "5s"⟩

end JupSdk
